import Mathlib

/-
A shallow embedding of the msgraph-py client library (src/msgraph/core.py and
src/msgraph/devices.py) and proofs about its token cache, pagination loop,
query-parameter construction and LAPS password decoding.

Network interaction is modelled by passing the scripted sequence of server
responses explicitly; "raises" is modelled by the `Except` error monad; the
number of HTTP requests a call performs is returned alongside the result.
Python truthiness on optional strings and string-or-list values is modelled
explicitly by the `truthy*` functions.
-/

set_option autoImplicit false

namespace Msgraph

/-- Python `Union[list[str], str]`, the type of the `select` and `orderby`
arguments. -/
inductive StrOrList where
  | str : String → StrOrList
  | list : List String → StrOrList
deriving DecidableEq

/-- `core.ensure_list`: `[value] if isinstance(value, str) else value`. -/
def ensure_list : StrOrList → List String
  | .str s => [s]
  | .list l => l

/-- Python truthiness of a string: non-empty. -/
def truthyStr (s : String) : Bool := s != ""

/-- Python truthiness of an optional string (`None` is falsy). -/
def truthyOptStr : Option String → Bool
  | none => false
  | some s => truthyStr s

/-- Python truthiness of a string-or-list value. -/
def truthySL : StrOrList → Bool
  | .str s => s != ""
  | .list l => !l.isEmpty

/-- Python truthiness of an optional string-or-list value. -/
def truthyOptSL : Option StrOrList → Bool
  | none => false
  | some v => truthySL v

/-- Python `",".join(...)`. -/
def joinComma (l : List String) : String := String.intercalate "," l

/-- `devices.MAX_PAGE_SIZE` (both `get_device` and `list_owned_devices`). -/
def MAX_PAGE_SIZE : Int := 999

/-- `core.CLOCK_SKEW_SECONDS = 5 * 60`. -/
def CLOCK_SKEW_SECONDS : Int := 5 * 60

/-- The condition `filter or search or orderby` governing `$count` and the
`ConsistencyLevel` header in both list endpoints. -/
def advancedQuery (filter search : Option String) (orderby : Option StrOrList) : Bool :=
  truthyOptStr filter || truthyOptStr search || truthyOptSL orderby

/-- The `params` dictionary built by `get_device` and `list_owned_devices`.
A field holding `none` corresponds to a `None` value in the Python dict,
which the HTTP client drops, i.e. the parameter is not emitted. -/
structure Params where
  select : Option String
  filter : Option String
  search : Option String
  orderby : Option String
  top : Option Int
  count : Option String
deriving DecidableEq

/-- The `params = { ... }` dictionary literal shared verbatim by `get_device`
(devices.py lines 52-59) and `list_owned_devices` (lines 169-176). -/
def buildParams (select : Option StrOrList) (filter search : Option String)
    (orderby : Option StrOrList) (top : Option Int) (all : Bool) : Params where
  select :=
    match select with
    | some v => if truthySL v then some (joinComma (ensure_list v)) else none
    | none => none
  filter := filter
  search :=
    match search with
    | some s => if truthyStr s then some ("\"" ++ s ++ "\"") else none
    | none => none
  orderby :=
    match orderby with
    | some v => if truthySL v then some (joinComma (ensure_list v)) else none
    | none => none
  top :=
    match top with
    | some t => some t
    | none => if all then some MAX_PAGE_SIZE else none
  count := if advancedQuery filter search orderby then some "true" else none

/-- The value of the `ConsistencyLevel` header:
`"eventual" if filter or search or orderby else None` (a `None` value is
dropped by the HTTP client, i.e. the header is not sent). -/
def consistencyLevelHeader (filter search : Option String)
    (orderby : Option StrOrList) : Option String :=
  if advancedQuery filter search orderby then some "eventual" else none

/-- The exceptions the embedded operations can raise. -/
inductive Err where
  /-- `ValueError` raised by the `get_device` precondition check. -/
  | invalidArgument : String → Err
  /-- `ConnectionError` raised on a non-200 Graph response: carries
  `response.status_code`, `response.reason` and
  `response.json().get("error", \x7b\x7d).get("message")`. -/
  | request : Nat → String → Option String → Err
  /-- `ConnectionError` raised on a non-200 token response: carries
  `response.status_code`, `response.reason` and
  `response.json().get("error_description")`. -/
  | auth : Nat → String → Option String → Err
  /-- Python `TypeError` (`data.extend(None)` in `list_owned_devices`). -/
  | typeError : Err
  /-- Python `IndexError` (`[...][1]` or `data[0]` out of range). -/
  | indexError : Err
  /-- Python `KeyError` on a missing JSON field. -/
  | keyError : String → Err
  /-- The scripted server has no response left for a request the loop issues. -/
  | noResponse : Err
  /-- `binascii.Error` from `b64decode`. -/
  | binasciiError : Err
  /-- `UnicodeDecodeError` from `.decode("utf-8")`. -/
  | unicodeError : Err
deriving DecidableEq

/-- One HTTP response of a Graph list endpoint, over an abstract type `α` of
JSON objects. `selfObj` stands for the whole `response.json()` dictionary
viewed as one object (used by `get_device`'s `[response.json()]` fallback);
`value`, `nextLink` and `odataCount` are the optional `"value"`,
`"@odata.nextLink"` and `"@odata.count"` fields of the body. -/
structure Response (α : Type) where
  status : Nat
  reason : String
  errorMessage : Option String
  selfObj : α
  value : Option (List α)
  nextLink : Option String
  odataCount : Option Int
deriving DecidableEq

/-- Whether `sep` is an initial segment of `l`. -/
def leadsWith : List Char → List Char → Bool
  | [], _ => true
  | _ :: _, [] => false
  | a :: as, b :: bs => a = b && leadsWith as bs

/-- Whether `needle` occurs as a contiguous segment of `hay`. -/
def occursIn (needle : List Char) : List Char → Bool
  | [] => needle.isEmpty
  | c :: cs => leadsWith needle (c :: cs) || occursIn needle cs

/-- The characters after the first occurrence of `sep`, if `sep` occurs. -/
def afterFirst (sep : List Char) : List Char → Option (List Char)
  | [] => if leadsWith sep [] then some [] else none
  | c :: cs =>
    if leadsWith sep (c :: cs) then some ((c :: cs).drop sep.length)
    else afterFirst sep cs

/-- The characters before the first occurrence of `sep` (all of them when
`sep` does not occur). -/
def beforeFirst (sep : List Char) : List Char → List Char
  | [] => []
  | c :: cs =>
    if leadsWith sep (c :: cs) then [] else c :: beforeFirst sep cs

/-- `next_link.split("$skiptoken=")[1]`: `some` of the text between the first
occurrence of the delimiter and the following occurrence or the end of the
string, `none` (Python `IndexError`) when the delimiter does not occur. -/
def skiptokenOf (link : String) : Option String :=
  let sep := "$skiptoken=".data
  match afterFirst sep link.data with
  | none => none
  | some rest => some (String.mk (beforeFirst sep rest))

/-- `get_device` page extraction:
`response.json().get("value", [response.json()])` never raises. -/
def extractDevice {α : Type} (r : Response α) : Except Err (List α) :=
  Except.ok (r.value.getD [r.selfObj])

/-- `list_owned_devices` page extraction:
`data.extend(response.json().get("value"))` raises `TypeError` when the
`"value"` field is absent. -/
def extractOwned {α : Type} (r : Response α) : Except Err (List α) :=
  match r.value with
  | some vs => Except.ok vs
  | none => Except.error Err.typeError

/-- The `while True` pagination loop shared by `get_device` (devices.py
lines 66-93) and `list_owned_devices` (lines 183-210), parameterised by the
page-extraction step. Consumes the scripted responses one per request and
returns the result together with the number of requests issued (a request
issued after the script is exhausted counts and yields `Err.noResponse`).
The loop continues only if `next_link and (all and top is None)`; the
continuation token is extracted with `next_link.split("$skiptoken=")[1]`,
which raises `IndexError` when the delimiter is absent. -/
def runPages {α : Type} (extract : Response α → Except Err (List α))
    (all : Bool) (top : Option Int) :
    List (Response α) → List α → Except Err (List α) × Nat
  | [], _acc => (Except.error Err.noResponse, 1)
  | r :: rest, acc =>
    if r.status ≠ 200 then
      (Except.error (Err.request r.status r.reason r.errorMessage), 1)
    else
      match extract r with
      | Except.error e => (Except.error e, 1)
      | Except.ok vs =>
        if truthyOptStr r.nextLink && all && top.isNone then
          match skiptokenOf (r.nextLink.getD "") with
          | some _ =>
            let out := runPages extract all top rest (acc ++ vs)
            (out.fst, out.snd + 1)
          | none => (Except.error Err.indexError, 1)
        else
          (Except.ok (acc ++ vs), 1)

/-- `return data[0] if device_id else data`: a single object or a list. -/
inductive GetDeviceResult (α : Type) where
  | single : α → GetDeviceResult α
  | many : List α → GetDeviceResult α
deriving DecidableEq

/-- Observable outcome of one list-endpoint call: the returned value or the
raised exception, how many token acquisitions and Graph requests were
performed, and the query parameters and `ConsistencyLevel` header value of
the built request (`none` when the call failed before building a request). -/
structure CallOutcome (ρ : Type) where
  result : Except Err ρ
  tokenCalls : Nat
  requests : Nat
  sentParams : Option Params
  sentConsistency : Option (Option String)

/-- `devices.get_device`. The mutual-exclusion precondition is checked before
`get_token()` and before any request; then the request is built and the
pagination loop runs against the scripted responses `pages`. -/
def get_device {α : Type} (device_id : Option String) (select : Option StrOrList)
    (filter search : Option String) (orderby : Option StrOrList)
    (top : Option Int) (all : Bool) (pages : List (Response α)) :
    CallOutcome (GetDeviceResult α) :=
  if truthyOptStr device_id && (truthyOptStr filter || truthyOptStr search) then
    { result := Except.error (Err.invalidArgument
        "Parameters device_id and filter|search are mutually exclusive."),
      tokenCalls := 0, requests := 0, sentParams := none, sentConsistency := none }
  else
    let params := buildParams select filter search orderby top all
    let cl := consistencyLevelHeader filter search orderby
    let out := runPages extractDevice all top pages []
    let res : Except Err (GetDeviceResult α) :=
      match out.fst with
      | Except.error e => Except.error e
      | Except.ok data =>
        if truthyOptStr device_id then
          match data with
          | [] => Except.error Err.indexError
          | d :: _ => Except.ok (GetDeviceResult.single d)
        else Except.ok (GetDeviceResult.many data)
    { result := res, tokenCalls := 1, requests := out.snd,
      sentParams := some params, sentConsistency := some cl }

/-- `devices.list_owned_devices`. `user_id` only enters the request URL. -/
def list_owned_devices {α : Type} (user_id : String) (select : Option StrOrList)
    (filter search : Option String) (orderby : Option StrOrList)
    (top : Option Int) (all : Bool) (pages : List (Response α)) :
    CallOutcome (List α) :=
  let _ := user_id
  let params := buildParams select filter search orderby top all
  let cl := consistencyLevelHeader filter search orderby
  let out := runPages extractOwned all top pages []
  { result := out.fst, tokenCalls := 1, requests := out.snd,
    sentParams := some params, sentConsistency := some cl }

/-- `core._token_cache` once populated: the `"jwt"` and `"exp"` entries. -/
structure TokenCache where
  jwt : String
  exp : Int
deriving DecidableEq

/-- The response of the identity token endpoint. `access_token` and
`expires_in` are the JSON fields read on a 200 response; `error_description`
is the field read on failure. -/
structure TokenResponse where
  status : Nat
  reason : String
  error_description : Option String
  access_token : String
  expires_in : Int
deriving DecidableEq

/-- Observable outcome of one `get_token` call: returned token or raised
error, the cache afterwards, and the number of network requests performed. -/
structure TokenOutcome where
  result : Except Err String
  cache : Option TokenCache
  networkCalls : Nat

/-- The token request of `core.get_token` (lines 56-74): on non-200 raise
`ConnectionError` leaving the cache alone; on 200 store the token and
`now + expires_in` in the cache and return the token. -/
def tokenFetch (cache : Option TokenCache) (now : Int) (resp : TokenResponse) :
    TokenOutcome :=
  if resp.status ≠ 200 then
    { result := Except.error (Err.auth resp.status resp.reason resp.error_description),
      cache := cache, networkCalls := 1 }
  else
    { result := Except.ok resp.access_token,
      cache := some { jwt := resp.access_token, exp := now + resp.expires_in },
      networkCalls := 1 }

/-- `core.get_token`: return the cached token without any network call when
`_token_cache["exp"] >= time() + CLOCK_SKEW_SECONDS`, else fetch a new one. -/
def get_token (cache : Option TokenCache) (now : Int) (resp : TokenResponse) :
    TokenOutcome :=
  match cache with
  | some c =>
    if now + CLOCK_SKEW_SECONDS ≤ c.exp then
      { result := Except.ok c.jwt, cache := some c, networkCalls := 0 }
    else
      tokenFetch (some c) now resp
  | none => tokenFetch none now resp

/-- Python `needle in hay`: substring occurrence. -/
def strContains (hay needle : String) : Bool :=
  occursIn needle.data hay.data

/-- Value of a character in the standard Base64 alphabet. -/
def b64Val (c : Char) : Option Nat :=
  if 'A' ≤ c ∧ c ≤ 'Z' then some (c.toNat - 65)
  else if 'a' ≤ c ∧ c ≤ 'z' then some (c.toNat - 97 + 26)
  else if '0' ≤ c ∧ c ≤ '9' then some (c.toNat - 48 + 52)
  else if c = '+' then some 62
  else if c = '/' then some 63
  else none

/-- Characters `base64.b64decode` keeps before the padding check: the
alphabet plus `'='`; everything else is discarded. -/
def b64Keep (c : Char) : Bool := (b64Val c).isSome || c = '='

/-- Decode base64 quartets to bytes; `'='` padding may only close the final
quartet. `none` models `binascii.Error`. -/
def b64Chunks : List Char → Option (List Nat)
  | [] => some []
  | a :: b :: c :: d :: rest =>
    match b64Val a, b64Val b with
    | some va, some vb =>
      if c = '=' ∧ d = '=' ∧ rest = [] then
        some [va * 4 + vb / 16]
      else
        match b64Val c with
        | some vc =>
          if d = '=' ∧ rest = [] then
            some [va * 4 + vb / 16, (vb % 16) * 16 + vc / 4]
          else
            match b64Val d with
            | some vd =>
              (b64Chunks rest).map
                (fun t => (va * 4 + vb / 16) :: ((vb % 16) * 16 + vc / 4) ::
                  ((vc % 4) * 64 + vd) :: t)
            | none => none
        | none => none
    | _, _ => none
  | _ => none

/-- `base64.b64decode`: discard foreign characters, require a length that is
a multiple of four, decode quartet-wise. Bytes are modelled as `Nat < 256`. -/
def b64decode (s : String) : Option (List Nat) :=
  let cs := s.data.filter b64Keep
  if cs.length % 4 = 0 then b64Chunks cs else none

/-- `bytes.decode("utf-8")` (strict): reject truncated or out-of-place bytes,
overlong encodings, surrogates, and code points beyond U+10FFFF. `none`
models `UnicodeDecodeError`. -/
def utf8Decode : List Nat → Option (List Char)
  | [] => some []
  | b :: rest =>
    if b < 128 then
      (utf8Decode rest).map (fun cs => Char.ofNat b :: cs)
    else if 194 ≤ b ∧ b ≤ 223 then
      match rest with
      | b2 :: rest2 =>
        if 128 ≤ b2 ∧ b2 ≤ 191 then
          (utf8Decode rest2).map
            (fun cs => Char.ofNat ((b - 192) * 64 + (b2 - 128)) :: cs)
        else none
      | [] => none
    else if 224 ≤ b ∧ b ≤ 239 then
      match rest with
      | b2 :: b3 :: rest3 =>
        let cp := (b - 224) * 4096 + (b2 - 128) * 64 + (b3 - 128)
        if 128 ≤ b2 ∧ b2 ≤ 191 ∧ 128 ≤ b3 ∧ b3 ≤ 191 ∧ 2048 ≤ cp ∧
            (cp < 55296 ∨ 57343 < cp) then
          (utf8Decode rest3).map (fun cs => Char.ofNat cp :: cs)
        else none
      | _ => none
    else if 240 ≤ b ∧ b ≤ 244 then
      match rest with
      | b2 :: b3 :: b4 :: rest4 =>
        let cp := (b - 240) * 262144 + (b2 - 128) * 4096 + (b3 - 128) * 64 +
          (b4 - 128)
        if 128 ≤ b2 ∧ b2 ≤ 191 ∧ 128 ≤ b3 ∧ b3 ≤ 191 ∧ 128 ≤ b4 ∧ b4 ≤ 191 ∧
            65536 ≤ cp ∧ cp ≤ 1114111 then
          (utf8Decode rest4).map (fun cs => Char.ofNat cp :: cs)
        else none
      | _ => none
    else none

/-- One entry of the `credentials` array of a device-local-credentials
response: only the optional `passwordBase64` field is read. -/
structure Cred where
  passwordBase64 : Option String
deriving DecidableEq

/-- The HTTP response `get_laps_password` receives. `contentType` is the
optional `Content-Type` header; `credentials` is the optional `credentials`
field of the JSON body (absent field models a `KeyError`). -/
structure LapsResponse where
  status : Nat
  reason : String
  errorMessage : Option String
  contentType : Option String
  credentials : Option (List Cred)
deriving DecidableEq

/-- `devices.get_laps_password`: raise on non-200; return `None` when the
`Content-Type` does not contain `application/json`; otherwise Base64-decode
`credentials[0].get("passwordBase64", "")` and UTF-8-decode the bytes. -/
def get_laps_password (resp : LapsResponse) : Except Err (Option String) :=
  if resp.status ≠ 200 then
    Except.error (Err.request resp.status resp.reason resp.errorMessage)
  else if !strContains (resp.contentType.getD "") "application/json" then
    Except.ok none
  else
    match resp.credentials with
    | none => Except.error (Err.keyError "credentials")
    | some creds =>
      match creds with
      | [] => Except.error Err.indexError
      | c0 :: _ =>
        match b64decode (c0.passwordBase64.getD "") with
        | none => Except.error Err.binasciiError
        | some bytes =>
          match utf8Decode bytes with
          | none => Except.error Err.unicodeError
          | some chars => Except.ok (some (String.mk chars))

/-- Concatenation of the pages' `value` arrays, in page order. -/
def valuesConcat {α : Type} (pages : List (Response α)) : List α :=
  (pages.map (fun p => p.value.getD [])).flatten

/-- Claim C5 as stated: every query parameter among `$select`, `$filter`,
`$search`, `$orderby`, `$top` is emitted only when the corresponding caller
input is non-empty, `$search` is emitted wrapped in double quotes, and
`$count=true` together with the `ConsistencyLevel: eventual` header is
emitted exactly when at least one of `filter`, `search`, `orderby` is
supplied. -/
def claimC5 (select : Option StrOrList) (filter search : Option String)
    (orderby : Option StrOrList) (top : Option Int) (all : Bool) : Prop :=
  let p := buildParams select filter search orderby top all
  let h := consistencyLevelHeader filter search orderby
  (p.select.isSome = true → truthyOptSL select = true) ∧
  (p.filter.isSome = true → truthyOptStr filter = true) ∧
  (p.search.isSome = true → truthyOptStr search = true) ∧
  (∀ s, search = some s → truthyStr s = true →
    p.search = some ("\"" ++ s ++ "\"")) ∧
  (p.orderby.isSome = true → truthyOptSL orderby = true) ∧
  (p.top.isSome = true → top.isSome = true) ∧
  ((p.count = some "true" ∧ h = some "eventual") ↔
    (filter.isSome ∨ search.isSome ∨ orderby.isSome))

/-- A successful first page carrying a continuation link. -/
def pageNext : Response Nat where
  status := 200
  reason := "OK"
  errorMessage := none
  selfObj := 0
  value := some [1, 2]
  nextLink := some "https://graph.microsoft.com/v1.0/devices?$skiptoken=X1"
  odataCount := some 5

/-- A successful middle page carrying a continuation link. -/
def pageNext2 : Response Nat where
  status := 200
  reason := "OK"
  errorMessage := none
  selfObj := 0
  value := some [11, 12]
  nextLink := some "https://graph.microsoft.com/v1.0/devices?$skiptoken=X2"
  odataCount := none

/-- A successful final page without a continuation link. -/
def pageLast : Response Nat where
  status := 200
  reason := "OK"
  errorMessage := none
  selfObj := 0
  value := some [3]
  nextLink := none
  odataCount := none

/-- A failing page. -/
def pageBad : Response Nat where
  status := 403
  reason := "Forbidden"
  errorMessage := some "Insufficient privileges to complete the operation."
  selfObj := 0
  value := none
  nextLink := none
  odataCount := none

/-- C3: when a cached token exists whose expiry lies more than 300 seconds
after the current time, `get_token` returns the identical cached token
string, performs no network request, and leaves the cache unchanged. -/
theorem get_token_cache_hit (c : TokenCache) (now : Int) (resp : TokenResponse)
    (h : now + 300 < c.exp) :
    get_token (some c) now resp =
      { result := Except.ok c.jwt, cache := some c, networkCalls := 0 } := by
  have hle : now + CLOCK_SKEW_SECONDS ≤ c.exp := by
    simp only [CLOCK_SKEW_SECONDS]
    omega

  simp [get_token, hle]

theorem get_token_cache_hit_witness :
    (0 : Int) + 300 < 1000 ∧
    get_token (some { jwt := "tok", exp := 1000 }) 0
        { status := 503, reason := "Service Unavailable",
          error_description := none, access_token := "other",
          expires_in := 3600 } =
      { result := Except.ok "tok", cache := some { jwt := "tok", exp := 1000 },
        networkCalls := 0 } :=
  ⟨by decide,
    get_token_cache_hit { jwt := "tok", exp := 1000 } 0
      { status := 503, reason := "Service Unavailable",
        error_description := none, access_token := "other",
        expires_in := 3600 } (by decide)⟩

/-- C4: when `get_token` misses the cache and the token request answers 200
with `access_token` and `expires_in`, the cache afterwards holds exactly that
token with absolute expiry `now + expires_in`, and that token is returned. -/
theorem get_token_renewal_success (cache : Option TokenCache) (now : Int)
    (resp : TokenResponse)
    (hmiss : ∀ c, cache = some c → c.exp < now + CLOCK_SKEW_SECONDS)
    (h200 : resp.status = 200) :
    get_token cache now resp =
      { result := Except.ok resp.access_token,
        cache := some { jwt := resp.access_token, exp := now + resp.expires_in },
        networkCalls := 1 } := by
  cases cache with
  | none => simp [get_token, tokenFetch, h200]
  | some c =>
    have hlt := hmiss c rfl
    have hnot : ¬ now + CLOCK_SKEW_SECONDS ≤ c.exp := by omega
    simp [get_token, hnot, tokenFetch, h200]

theorem get_token_renewal_success_witness :
    get_token none 5
        { status := 200, reason := "OK", error_description := none,
          access_token := "tok2", expires_in := 3600 } =
      { result := Except.ok "tok2",
        cache := some { jwt := "tok2", exp := 5 + 3600 }, networkCalls := 1 } :=
  get_token_renewal_success none 5
    { status := 200, reason := "OK", error_description := none,
      access_token := "tok2", expires_in := 3600 }
    (fun c hc => by cases hc) rfl

/-- C9: when `get_token` misses the cache and the token request answers with
a non-200 status, `get_token` raises and the cache is left exactly as it was
before the call. -/
theorem get_token_failure_cache_unchanged (cache : Option TokenCache)
    (now : Int) (resp : TokenResponse)
    (hmiss : ∀ c, cache = some c → c.exp < now + CLOCK_SKEW_SECONDS)
    (hbad : resp.status ≠ 200) :
    get_token cache now resp =
      { result := Except.error
          (Err.auth resp.status resp.reason resp.error_description),
        cache := cache, networkCalls := 1 } := by
  cases cache with
  | none => simp [get_token, tokenFetch, hbad]
  | some c =>
    have hlt := hmiss c rfl
    have hnot : ¬ now + CLOCK_SKEW_SECONDS ≤ c.exp := by omega
    simp [get_token, hnot, tokenFetch, hbad]

theorem get_token_failure_cache_unchanged_witness :
    get_token (some { jwt := "old", exp := 100 }) 0
        { status := 401, reason := "Unauthorized",
          error_description := some "AADSTS7000215: Invalid client secret.",
          access_token := "", expires_in := 0 } =
      { result := Except.error (Err.auth 401 "Unauthorized"
          (some "AADSTS7000215: Invalid client secret.")),
        cache := some { jwt := "old", exp := 100 }, networkCalls := 1 } :=
  get_token_failure_cache_unchanged (some { jwt := "old", exp := 100 }) 0
    { status := 401, reason := "Unauthorized",
      error_description := some "AADSTS7000215: Invalid client secret.",
      access_token := "", expires_in := 0 }
    (fun c hc => by cases hc; decide) (by decide)

/-- C7: `get_device` with a non-empty `device_id` together with a non-empty
`filter` or a non-empty `search` fails with the `ValueError` precondition
violation before any token acquisition and before any network request. -/
theorem get_device_mutual_exclusion {α : Type} (d : String)
    (select : Option StrOrList) (filter search : Option String)
    (orderby : Option StrOrList) (top : Option Int) (all : Bool)
    (pages : List (Response α)) (hd : truthyStr d = true)
    (hfs : truthyOptStr filter = true ∨ truthyOptStr search = true) :
    get_device (some d) select filter search orderby top all pages =
      { result := Except.error (Err.invalidArgument
          "Parameters device_id and filter|search are mutually exclusive."),
        tokenCalls := 0, requests := 0, sentParams := none,
        sentConsistency := none } := by
  have hcond :
      (truthyOptStr (some d) && (truthyOptStr filter || truthyOptStr search))
        = true := by
    have h1 : truthyOptStr (some d) = true := hd
    rcases hfs with h | h <;> simp [h1, h]
  simp [get_device, hcond]

theorem get_device_mutual_exclusion_witness :
    get_device (some "x") none (some "y") none none none false
        ([] : List (Response Nat)) =
      { result := Except.error (Err.invalidArgument
          "Parameters device_id and filter|search are mutually exclusive."),
        tokenCalls := 0, requests := 0, sentParams := none,
        sentConsistency := none } :=
  get_device_mutual_exclusion "x" none (some "y") none none none false
    ([] : List (Response Nat)) (by decide) (Or.inl (by decide))

/-- C8: on a 200 response, `get_laps_password` returns `None` when the
`Content-Type` does not indicate JSON, and returns the Base64-decoded
plaintext password when the first credentials entry carries a
`passwordBase64` field that decodes to valid UTF-8. -/
theorem get_laps_password_decoding (resp : LapsResponse)
    (h200 : resp.status = 200) :
    (strContains (resp.contentType.getD "") "application/json" = false →
      get_laps_password resp = Except.ok none) ∧
    (∀ c0 creds p bytes chars,
      strContains (resp.contentType.getD "") "application/json" = true →
      resp.credentials = some (c0 :: creds) →
      c0.passwordBase64 = some p →
      b64decode p = some bytes →
      utf8Decode bytes = some chars →
      get_laps_password resp = Except.ok (some (String.mk chars))) := by
  constructor
  · intro hct
    simp [get_laps_password, h200, hct]
  · intro c0 creds p bytes chars hct hcred hp hb hu
    simp [get_laps_password, h200, hct, hcred, hp, hb, hu]

theorem get_laps_password_decoding_witness :
    get_laps_password
        { status := 200, reason := "OK", errorMessage := none,
          contentType := some "application/json; odata.metadata=minimal",
          credentials := some [{ passwordBase64 := some "cGFzcw==" }] } =
      Except.ok (some (String.mk ['p', 'a', 's', 's'])) ∧
    String.mk ['p', 'a', 's', 's'] = "pass" ∧
    get_laps_password
        { status := 200, reason := "OK", errorMessage := none,
          contentType := some "application/octet-stream",
          credentials := none } =
      Except.ok none :=
  ⟨(get_laps_password_decoding
      { status := 200, reason := "OK", errorMessage := none,
        contentType := some "application/json; odata.metadata=minimal",
        credentials := some [{ passwordBase64 := some "cGFzcw==" }] } rfl).2
    { passwordBase64 := some "cGFzcw==" } [] "cGFzcw=="
    [112, 97, 115, 115] ['p', 'a', 's', 's'] (by decide) rfl rfl
    (by decide) (by decide),
  by decide,
  (get_laps_password_decoding
      { status := 200, reason := "OK", errorMessage := none,
        contentType := some "application/octet-stream",
        credentials := none } rfl).1 (by decide)⟩

/-- C10: on a 200 JSON response whose first credentials entry has no
`passwordBase64` field, `get_laps_password` decodes the empty-string default
and returns the empty string, not `None`. -/
theorem get_laps_password_missing_field (resp : LapsResponse) (c0 : Cred)
    (creds : List Cred) (h200 : resp.status = 200)
    (hct : strContains (resp.contentType.getD "") "application/json" = true)
    (hcred : resp.credentials = some (c0 :: creds))
    (hp : c0.passwordBase64 = none) :
    get_laps_password resp = Except.ok (some "") := by
  have hb : b64decode "" = some [] := by decide
  have hu : utf8Decode [] = some [] := rfl
  simp [get_laps_password, h200, hct, hcred, hp, hb, hu]

theorem get_laps_password_missing_field_witness :
    get_laps_password
        { status := 200, reason := "OK", errorMessage := none,
          contentType := some "application/json",
          credentials := some [{ passwordBase64 := none },
            { passwordBase64 := some "cGFzcw==" }] } =
      Except.ok (some "") :=
  get_laps_password_missing_field
    { status := 200, reason := "OK", errorMessage := none,
      contentType := some "application/json",
      credentials := some [{ passwordBase64 := none },
        { passwordBase64 := some "cGFzcw==" }] }
    { passwordBase64 := none } [{ passwordBase64 := some "cGFzcw==" }]
    rfl (by decide) rfl rfl

lemma buildParams_select_isSome (select : Option StrOrList)
    (filter search : Option String) (orderby : Option StrOrList)
    (top : Option Int) (all : Bool) :
    (buildParams select filter search orderby top all).select.isSome
      = truthyOptSL select := by
  cases select with
  | none => rfl
  | some v =>
    by_cases hv : truthySL v = true <;>
      simp [buildParams, truthyOptSL, hv]

lemma buildParams_search_isSome (select : Option StrOrList)
    (filter search : Option String) (orderby : Option StrOrList)
    (top : Option Int) (all : Bool) :
    (buildParams select filter search orderby top all).search.isSome
      = truthyOptStr search := by
  cases search with
  | none => rfl
  | some s =>
    by_cases hs : truthyStr s = true <;>
      simp [buildParams, truthyOptStr, hs]

lemma buildParams_orderby_isSome (select : Option StrOrList)
    (filter search : Option String) (orderby : Option StrOrList)
    (top : Option Int) (all : Bool) :
    (buildParams select filter search orderby top all).orderby.isSome
      = truthyOptSL orderby := by
  cases orderby with
  | none => rfl
  | some v =>
    by_cases hv : truthySL v = true <;>
      simp [buildParams, truthyOptSL, hv]

lemma buildParams_count_eq (select : Option StrOrList)
    (filter search : Option String) (orderby : Option StrOrList)
    (top : Option Int) (all : Bool) :
    (buildParams select filter search orderby top all).count = some "true"
      ↔ advancedQuery filter search orderby = true := by
  by_cases h : advancedQuery filter search orderby = true <;>
    simp [buildParams, h]

lemma consistencyLevelHeader_eq (filter search : Option String)
    (orderby : Option StrOrList) :
    consistencyLevelHeader filter search orderby = some "eventual"
      ↔ advancedQuery filter search orderby = true := by
  by_cases h : advancedQuery filter search orderby = true <;>
    simp [consistencyLevelHeader, h]

lemma get_device_sent_request {α : Type} (select : Option StrOrList)
    (filter search : Option String) (orderby : Option StrOrList)
    (top : Option Int) (all : Bool) (pages : List (Response α)) :
    (get_device none select filter search orderby top all pages).sentParams
        = some (buildParams select filter search orderby top all) ∧
    (get_device none select filter search orderby top all pages).sentConsistency
        = some (consistencyLevelHeader filter search orderby) := by
  constructor <;> simp [get_device, truthyOptStr]

lemma list_owned_devices_sent_request {α : Type} (u : String)
    (select : Option StrOrList) (filter search : Option String)
    (orderby : Option StrOrList) (top : Option Int) (all : Bool)
    (pages : List (Response α)) :
    (list_owned_devices u select filter search orderby top all pages).sentParams
        = some (buildParams select filter search orderby top all) ∧
    (list_owned_devices u select filter search orderby top all
        pages).sentConsistency
        = some (consistencyLevelHeader filter search orderby) :=
  ⟨rfl, rfl⟩

/-- C5, counterexample: the claim as stated is false for the call with
`filter=""`, `top=None`, `all=True` — the built request emits `$top=999`
although the caller supplied no top, emits `$filter` with an empty value,
and omits `$count`/`ConsistencyLevel` although `filter` is supplied. -/
theorem claimC5_counterexample :
    ¬ claimC5 none (some "") none none none true := by
  intro h
  have htop := h.2.2.2.2.2.1
  have h999 : (buildParams none (some "") none none none true).top
      = some 999 := by decide
  rw [h999] at htop
  simpa using htop rfl

/-- C5, amended: `$select`, `$search` (value wrapped in double quotes) and
`$orderby` are emitted exactly when the corresponding caller input is
non-empty; `$filter` is emitted with the caller's value whenever `filter` is
supplied, even when empty; `$top` carries the caller's value when `top` is
supplied, is set to the maximum page size 999 when `top` is absent and
`all=True`, and is omitted otherwise; `$count=true` and the header
`ConsistencyLevel: eventual` are emitted together exactly when at least one
of `filter`, `search`, `orderby` is non-empty; and both list endpoints send
exactly these parameters and this header value on their request. -/
theorem buildParams_characterization {α : Type} (select : Option StrOrList)
    (filter search : Option String) (orderby : Option StrOrList)
    (top : Option Int) (all : Bool) (u : String) (pages : List (Response α)) :
    ((buildParams select filter search orderby top all).select.isSome
      = truthyOptSL select) ∧
    ((buildParams select filter search orderby top all).filter = filter) ∧
    ((buildParams select filter search orderby top all).search.isSome
      = truthyOptStr search) ∧
    (∀ s, search = some s → truthyStr s = true →
      (buildParams select filter search orderby top all).search
        = some ("\"" ++ s ++ "\"")) ∧
    ((buildParams select filter search orderby top all).orderby.isSome
      = truthyOptSL orderby) ∧
    (∀ t, top = some t →
      (buildParams select filter search orderby top all).top = some t) ∧
    (top = none → all = true →
      (buildParams select filter search orderby top all).top = some 999) ∧
    (top = none → all = false →
      (buildParams select filter search orderby top all).top = none) ∧
    ((buildParams select filter search orderby top all).count = some "true"
      ↔ advancedQuery filter search orderby = true) ∧
    (consistencyLevelHeader filter search orderby = some "eventual"
      ↔ advancedQuery filter search orderby = true) ∧
    ((get_device none select filter search orderby top all pages).sentParams
        = some (buildParams select filter search orderby top all) ∧
      (get_device none select filter search orderby top all
          pages).sentConsistency
        = some (consistencyLevelHeader filter search orderby)) ∧
    ((list_owned_devices u select filter search orderby top all
          pages).sentParams
        = some (buildParams select filter search orderby top all) ∧
      (list_owned_devices u select filter search orderby top all
          pages).sentConsistency
        = some (consistencyLevelHeader filter search orderby)) := by
  refine ⟨buildParams_select_isSome select filter search orderby top all,
    rfl,
    buildParams_search_isSome select filter search orderby top all,
    ?_,
    buildParams_orderby_isSome select filter search orderby top all,
    ?_, ?_, ?_,
    buildParams_count_eq select filter search orderby top all,
    consistencyLevelHeader_eq filter search orderby,
    get_device_sent_request select filter search orderby top all pages,
    list_owned_devices_sent_request u select filter search orderby top all
      pages⟩
  · intro s hs htruthy
    subst hs
    simp [buildParams, htruthy]
  · intro t ht
    subst ht
    rfl
  · intro ht hall
    subst ht
    subst hall
    rfl
  · intro ht hall
    subst ht
    subst hall
    rfl

theorem buildParams_characterization_witness :
    ((buildParams (some (StrOrList.list ["id", "displayName"])) none
        (some "laptop") none none true).search = some "\"laptop\"") ∧
    ((buildParams (some (StrOrList.list ["id", "displayName"])) none
        (some "laptop") none none true).top = some 999) ∧
    ((buildParams (some (StrOrList.list ["id", "displayName"])) none
        (some "laptop") none none true).count = some "true"
      ↔ advancedQuery none (some "laptop") none = true) ∧
    (get_device none (some (StrOrList.list ["id", "displayName"])) none
        (some "laptop") none none true
        ([] : List (Response Nat))).sentParams
      = some (buildParams (some (StrOrList.list ["id", "displayName"])) none
        (some "laptop") none none true) :=
  have h := buildParams_characterization
    (some (StrOrList.list ["id", "displayName"])) none (some "laptop") none
    none true "alice" ([] : List (Response Nat))
  ⟨h.2.2.2.1 "laptop" rfl (by decide), h.2.2.2.2.2.2.1 rfl rfl,
    h.2.2.2.2.2.2.2.2.1, h.2.2.2.2.2.2.2.2.2.2.1.1⟩

@[simp] lemma truthyOptStr_none : truthyOptStr none = false := rfl

@[simp] lemma truthyOptStr_some (s : String) :
    truthyOptStr (some s) = truthyStr s := rfl

lemma runPages_snd_pos {α : Type} (extract : Response α → Except Err (List α))
    (all : Bool) (top : Option Int) (pages : List (Response α)) (acc : List α) :
    1 ≤ (runPages extract all top pages acc).snd := by
  cases pages with
  | nil => simp [runPages]
  | cons r rest =>
    rw [runPages]
    split
    · simp
    · cases hex : extract r with
      | error e => simp
      | ok vs =>
        simp only
        split
        · cases hsk : skiptokenOf (r.nextLink.getD "") with
          | none => simp
          | some tok => simp
        · simp

lemma get_device_requests_list_mode {α : Type} (select : Option StrOrList)
    (filter search : Option String) (orderby : Option StrOrList)
    (top : Option Int) (all : Bool) (pages : List (Response α)) :
    (get_device none select filter search orderby top all pages).requests
      = (runPages extractDevice all top pages []).snd := by
  simp [get_device]

lemma list_owned_devices_requests {α : Type} (u : String)
    (select : Option StrOrList) (filter search : Option String)
    (orderby : Option StrOrList) (top : Option Int) (all : Bool)
    (pages : List (Response α)) :
    (list_owned_devices u select filter search orderby top all pages).requests
      = (runPages extractOwned all top pages []).snd := rfl

lemma runPages_cons_snd {α : Type} (extract : Response α → Except Err (List α))
    (all : Bool) (top : Option Int) (r : Response α)
    (rest : List (Response α)) (acc : List α) (h200 : r.status = 200)
    (hex : ∃ vs, extract r = Except.ok vs)
    (hwf : truthyOptStr r.nextLink = true →
      (skiptokenOf (r.nextLink.getD "")).isSome = true) :
    ((2 ≤ (runPages extract all top (r :: rest) acc).snd) ↔
      (truthyOptStr r.nextLink = true ∧ all = true ∧ top = none)) ∧
    (¬ (truthyOptStr r.nextLink = true ∧ all = true ∧ top = none) →
      (runPages extract all top (r :: rest) acc).snd = 1) := by
  obtain ⟨vs, hvs⟩ := hex
  by_cases hcond : (truthyOptStr r.nextLink && all && top.isNone) = true
  · have hprop : truthyOptStr r.nextLink = true ∧ all = true ∧ top = none := by
      simp only [Bool.and_eq_true, Option.isNone_iff_eq_none] at hcond
      exact ⟨hcond.1.1, hcond.1.2, hcond.2⟩
    obtain ⟨tok, hsk⟩ := Option.isSome_iff_exists.mp (hwf hprop.1)
    have hpos := runPages_snd_pos extract all top rest (acc ++ vs)
    rw [runPages]
    simp only [h200, ne_eq, not_true_eq_false, if_false, hvs, hcond, if_true,
      hsk]
    constructor
    · constructor
      · intro _
        exact hprop
      · intro _
        omega
    · intro hnp
      exact absurd hprop hnp
  · have hcondf : (truthyOptStr r.nextLink && all && top.isNone) = false :=
      Bool.eq_false_iff.mpr hcond
    have hnp : ¬ (truthyOptStr r.nextLink = true ∧ all = true ∧ top = none) := by
      rintro ⟨h1, h2, h3⟩
      apply hcond
      simp [h1, h2, h3]
    rw [runPages]
    simp only [h200, ne_eq, not_true_eq_false, if_false, hvs, hcondf,
      Bool.false_eq_true, if_false]
    refine ⟨iff_of_false ?_ hnp, fun _ => ?_⟩ <;> simp

/-- C1: after a successfully received page, the pagination loop of
`get_device` (list mode) and `list_owned_devices` issues a further request
exactly when the page carried an `@odata.nextLink` continuation link and the
call is in fetch-all mode (`all=True` and `top=None`); in every other case,
including any call with an explicit `top`, exactly one page is fetched even
when a continuation link is present. -/
theorem pagination_follow_link_iff {α : Type} (r : Response α)
    (rest : List (Response α)) (u : String) (select : Option StrOrList)
    (filter search : Option String) (orderby : Option StrOrList)
    (top : Option Int) (all : Bool) (h200 : r.status = 200)
    (hwf : truthyOptStr r.nextLink = true →
      (skiptokenOf (r.nextLink.getD "")).isSome = true)
    (hval : r.value.isSome = true) :
    ((2 ≤ (get_device none select filter search orderby top all
        (r :: rest)).requests) ↔
      (truthyOptStr r.nextLink = true ∧ all = true ∧ top = none)) ∧
    (¬ (truthyOptStr r.nextLink = true ∧ all = true ∧ top = none) →
      (get_device none select filter search orderby top all
        (r :: rest)).requests = 1) ∧
    ((2 ≤ (list_owned_devices u select filter search orderby top all
        (r :: rest)).requests) ↔
      (truthyOptStr r.nextLink = true ∧ all = true ∧ top = none)) ∧
    (¬ (truthyOptStr r.nextLink = true ∧ all = true ∧ top = none) →
      (list_owned_devices u select filter search orderby top all
        (r :: rest)).requests = 1) := by
  obtain ⟨v, hv⟩ := Option.isSome_iff_exists.mp hval
  have hD := runPages_cons_snd extractDevice all top r rest [] h200
    ⟨r.value.getD [r.selfObj], rfl⟩ hwf
  have hO := runPages_cons_snd extractOwned all top r rest [] h200
    ⟨v, by simp [extractOwned, hv]⟩ hwf
  rw [get_device_requests_list_mode, list_owned_devices_requests]
  exact ⟨hD.1, hD.2, hO.1, hO.2⟩

theorem pagination_follow_link_iff_witness :
    2 ≤ (get_device none none none none none none true
      [pageNext, pageLast]).requests ∧
    (list_owned_devices "alice" none none none none (some 50) true
      [pageNext, pageLast]).requests = 1 :=
  ⟨(pagination_follow_link_iff pageNext [pageLast] "alice" none none none
      none none true rfl (by decide) rfl).1.mpr ⟨by decide, rfl, rfl⟩,
    (pagination_follow_link_iff pageNext [pageLast] "alice" none none none
      none (some 50) true rfl (by decide) rfl).2.2.2
      (fun h => Option.noConfusion h.2.2)⟩

@[simp] lemma valuesConcat_nil {α : Type} :
    valuesConcat ([] : List (Response α)) = [] := rfl

@[simp] lemma valuesConcat_cons {α : Type} (p : Response α)
    (l : List (Response α)) :
    valuesConcat (p :: l) = p.value.getD [] ++ valuesConcat l := by
  simp [valuesConcat]

lemma runPages_chain_ok {α : Type} (extract : Response α → Except Err (List α))
    (body : List (Response α)) (last : Response α) (acc : List α)
    (hok : ∀ p, p ∈ body ++ [last] →
      p.status = 200 ∧ extract p = Except.ok (p.value.getD []))
    (hlinks : ∀ p, p ∈ body → truthyOptStr p.nextLink = true ∧
      (skiptokenOf (p.nextLink.getD "")).isSome = true)
    (hlast : truthyOptStr last.nextLink = false) :
    runPages extract true none (body ++ [last]) acc
      = (Except.ok (acc ++ valuesConcat (body ++ [last])),
        body.length + 1) := by
  induction body generalizing acc with
  | nil =>
    have h := hok last (by simp)
    rw [List.nil_append, runPages]
    simp [h.1, h.2, hlast]
  | cons p body ih =>
    have hp := hok p (by simp)
    have hlink := hlinks p (by simp)
    obtain ⟨tok, hsk⟩ := Option.isSome_iff_exists.mp hlink.2
    have hcond :
        (truthyOptStr p.nextLink && true && (none : Option Int).isNone)
          = true := by
      simp [hlink.1]
    rw [List.cons_append, runPages]
    simp only [hp.1, ne_eq, not_true_eq_false, if_false, hp.2, hcond, if_true,
      hsk]
    rw [ih (acc ++ p.value.getD []) (fun q hq => hok q (by simp [hq]))
      (fun q hq => hlinks q (by simp [hq]))]
    simp [List.append_assoc]

lemma get_device_result_list_mode {α : Type} (select : Option StrOrList)
    (filter search : Option String) (orderby : Option StrOrList)
    (top : Option Int) (all : Bool) (pages : List (Response α))
    (data : List α)
    (h : (runPages extractDevice all top pages []).fst = Except.ok data) :
    (get_device none select filter search orderby top all pages).result
      = Except.ok (GetDeviceResult.many data) := by
  simp [get_device, h]

lemma get_device_result_error {α : Type} (select : Option StrOrList)
    (filter search : Option String) (orderby : Option StrOrList)
    (top : Option Int) (all : Bool) (pages : List (Response α)) (e : Err)
    (h : (runPages extractDevice all top pages []).fst = Except.error e) :
    (get_device none select filter search orderby top all pages).result
      = Except.error e := by
  simp [get_device, h]

lemma list_owned_devices_result {α : Type} (u : String)
    (select : Option StrOrList) (filter search : Option String)
    (orderby : Option StrOrList) (top : Option Int) (all : Bool)
    (pages : List (Response α)) :
    (list_owned_devices u select filter search orderby top all pages).result
      = (runPages extractOwned all top pages []).fst := rfl

/-- C2: a fetch-all call (`all=True`, `top=None`) against a server answering
a finite sequence of successful pages, all but the last carrying a
continuation link, returns exactly the concatenation of the pages' `value`
arrays in page order — for `get_device` in list mode and for
`list_owned_devices`. -/
theorem fetch_all_concatenation {α : Type} (body : List (Response α))
    (last : Response α) (u : String) (select : Option StrOrList)
    (filter search : Option String) (orderby : Option StrOrList)
    (hok : ∀ p, p ∈ body ++ [last] → p.status = 200 ∧ p.value.isSome = true)
    (hlinks : ∀ p, p ∈ body → truthyOptStr p.nextLink = true ∧
      (skiptokenOf (p.nextLink.getD "")).isSome = true)
    (hlast : truthyOptStr last.nextLink = false) :
    (get_device none select filter search orderby none true
        (body ++ [last])).result
      = Except.ok (GetDeviceResult.many (valuesConcat (body ++ [last]))) ∧
    (list_owned_devices u select filter search orderby none true
        (body ++ [last])).result
      = Except.ok (valuesConcat (body ++ [last])) := by
  have hokD : ∀ p, p ∈ body ++ [last] →
      p.status = 200 ∧ extractDevice p = Except.ok (p.value.getD []) := by
    intro p hp
    obtain ⟨h200, hsome⟩ := hok p hp
    obtain ⟨vs, hv⟩ := Option.isSome_iff_exists.mp hsome
    exact ⟨h200, by simp [extractDevice, hv]⟩
  have hokO : ∀ p, p ∈ body ++ [last] →
      p.status = 200 ∧ extractOwned p = Except.ok (p.value.getD []) := by
    intro p hp
    obtain ⟨h200, hsome⟩ := hok p hp
    obtain ⟨vs, hv⟩ := Option.isSome_iff_exists.mp hsome
    exact ⟨h200, by simp [extractOwned, hv]⟩
  have hD := runPages_chain_ok extractDevice body last [] hokD hlinks hlast
  have hO := runPages_chain_ok extractOwned body last [] hokO hlinks hlast
  constructor
  · exact get_device_result_list_mode select filter search orderby none true
      (body ++ [last]) (valuesConcat (body ++ [last])) (by rw [hD]; simp)
  · rw [list_owned_devices_result, hO]
    simp

theorem fetch_all_concatenation_witness :
    (get_device none none none none none none true
        [pageNext, pageNext2, pageLast]).result
      = Except.ok (GetDeviceResult.many
          (valuesConcat [pageNext, pageNext2, pageLast])) ∧
    (list_owned_devices "alice" none none none none none true
        [pageNext, pageNext2, pageLast]).result
      = Except.ok (valuesConcat [pageNext, pageNext2, pageLast]) ∧
    valuesConcat [pageNext, pageNext2, pageLast] = [1, 2, 11, 12, 3] :=
  have h := fetch_all_concatenation [pageNext, pageNext2] pageLast "alice"
    none none none none
    (by
      intro p hp
      simp only [List.cons_append, List.nil_append, List.mem_cons,
        List.not_mem_nil, or_false] at hp
      rcases hp with h | h | h <;> subst h <;> exact ⟨rfl, rfl⟩)
    (by
      intro p hp
      simp only [List.mem_cons, List.not_mem_nil, or_false] at hp
      rcases hp with h | h <;> subst h <;> exact ⟨rfl, by decide⟩)
    rfl
  ⟨h.1, h.2, by decide⟩

lemma runPages_chain_err {α : Type} (extract : Response α → Except Err (List α))
    (pre : List (Response α)) (bad : Response α) (rest : List (Response α))
    (acc : List α) (all : Bool) (top : Option Int)
    (hmode : pre = [] ∨ (all = true ∧ top = none))
    (hpre : ∀ p, p ∈ pre → p.status = 200 ∧
      (∃ vs, extract p = Except.ok vs) ∧ truthyOptStr p.nextLink = true ∧
      (skiptokenOf (p.nextLink.getD "")).isSome = true)
    (hbad : bad.status ≠ 200) :
    (runPages extract all top (pre ++ bad :: rest) acc).fst
      = Except.error (Err.request bad.status bad.reason bad.errorMessage) := by
  induction pre generalizing acc with
  | nil =>
    rw [List.nil_append, runPages]
    simp [hbad]
  | cons p pre ih =>
    rcases hmode with he | ⟨hall, htop⟩
    · exact absurd he (List.cons_ne_nil p pre)
    · subst hall
      subst htop
      obtain ⟨h200, ⟨vs, hvs⟩, hlink, hskSome⟩ := hpre p (by simp)
      obtain ⟨tok, hsk⟩ := Option.isSome_iff_exists.mp hskSome
      have hcond :
          (truthyOptStr p.nextLink && true && (none : Option Int).isNone)
            = true := by
        simp [hlink]
      rw [List.cons_append, runPages]
      simp only [h200, ne_eq, not_true_eq_false, if_false, hvs, hcond,
        if_true, hsk]
      exact ih (acc ++ vs) (Or.inr ⟨rfl, rfl⟩)
        (fun q hq => hpre q (by simp [hq]))

/-- C6: a non-200 response makes the whole operation fail with an error
carrying the original HTTP status code, reason phrase and provider error
message, and no partial data is returned: in fetch-all mode a failed page in
the middle of the loop discards every page accumulated before it, a failing
first page aborts the call in every mode, and `get_laps_password` fails the
same way. -/
theorem non200_total_failure {α : Type} (pre : List (Response α))
    (bad : Response α) (rest : List (Response α)) (u : String)
    (select : Option StrOrList) (filter search : Option String)
    (orderby : Option StrOrList) (lresp : LapsResponse)
    (hpre : ∀ p, p ∈ pre → p.status = 200 ∧ p.value.isSome = true ∧
      truthyOptStr p.nextLink = true ∧
      (skiptokenOf (p.nextLink.getD "")).isSome = true)
    (hbad : bad.status ≠ 200) (hlresp : lresp.status ≠ 200) :
    (get_device none select filter search orderby none true
        (pre ++ bad :: rest)).result
      = Except.error (Err.request bad.status bad.reason bad.errorMessage) ∧
    (list_owned_devices u select filter search orderby none true
        (pre ++ bad :: rest)).result
      = Except.error (Err.request bad.status bad.reason bad.errorMessage) ∧
    (∀ (all2 : Bool) (top2 : Option Int),
      (get_device none select filter search orderby top2 all2
          (bad :: rest)).result
        = Except.error (Err.request bad.status bad.reason bad.errorMessage) ∧
      (list_owned_devices u select filter search orderby top2 all2
          (bad :: rest)).result
        = Except.error
            (Err.request bad.status bad.reason bad.errorMessage)) ∧
    get_laps_password lresp
      = Except.error (Err.request lresp.status lresp.reason
          lresp.errorMessage) := by
  have hpreD : ∀ p, p ∈ pre → p.status = 200 ∧
      (∃ vs, extractDevice p = Except.ok vs) ∧
      truthyOptStr p.nextLink = true ∧
      (skiptokenOf (p.nextLink.getD "")).isSome = true := by
    intro p hp
    obtain ⟨h200, hsome, hlink, hsk⟩ := hpre p hp
    exact ⟨h200, ⟨p.value.getD [p.selfObj], rfl⟩, hlink, hsk⟩
  have hpreO : ∀ p, p ∈ pre → p.status = 200 ∧
      (∃ vs, extractOwned p = Except.ok vs) ∧
      truthyOptStr p.nextLink = true ∧
      (skiptokenOf (p.nextLink.getD "")).isSome = true := by
    intro p hp
    obtain ⟨h200, hsome, hlink, hsk⟩ := hpre p hp
    obtain ⟨vs, hv⟩ := Option.isSome_iff_exists.mp hsome
    exact ⟨h200, ⟨vs, by simp [extractOwned, hv]⟩, hlink, hsk⟩
  refine ⟨?_, ?_, ?_, ?_⟩
  · exact get_device_result_error select filter search orderby none true
      (pre ++ bad :: rest) _
      (runPages_chain_err extractDevice pre bad rest [] true none
        (Or.inr ⟨rfl, rfl⟩) hpreD hbad)
  · rw [list_owned_devices_result]
    exact runPages_chain_err extractOwned pre bad rest [] true none
      (Or.inr ⟨rfl, rfl⟩) hpreO hbad
  · intro all2 top2
    constructor
    · exact get_device_result_error select filter search orderby top2 all2
        (bad :: rest) _
        (runPages_chain_err extractDevice [] bad rest [] all2 top2
          (Or.inl rfl) (fun q hq => absurd hq (List.not_mem_nil q)) hbad)
    · rw [list_owned_devices_result]
      exact runPages_chain_err extractOwned [] bad rest [] all2 top2
        (Or.inl rfl) (fun q hq => absurd hq (List.not_mem_nil q)) hbad
  · simp [get_laps_password, hlresp]

theorem non200_total_failure_witness :
    (get_device none none none none none none true
        [pageNext, pageBad, pageLast]).result
      = Except.error (Err.request 403 "Forbidden"
          (some "Insufficient privileges to complete the operation.")) ∧
    (list_owned_devices "alice" none none none none none true
        [pageNext, pageBad, pageLast]).result
      = Except.error (Err.request 403 "Forbidden"
          (some "Insufficient privileges to complete the operation.")) ∧
    get_laps_password
        { status := 404, reason := "Not Found", errorMessage := some
            "Resource not found.", contentType := some "application/json",
          credentials := none }
      = Except.error (Err.request 404 "Not Found"
          (some "Resource not found.")) :=
  have h := non200_total_failure [pageNext] pageBad [pageLast] "alice"
    none none none none
    { status := 404, reason := "Not Found",
      errorMessage := some "Resource not found.",
      contentType := some "application/json", credentials := none }
    (by
      intro p hp
      simp only [List.mem_cons, List.not_mem_nil, or_false] at hp
      subst hp
      exact ⟨rfl, rfl, rfl, by decide⟩)
    (by decide) (by decide)
  ⟨h.1, h.2.1, h.2.2.2⟩

end Msgraph

